import Mathlib

/-!
Shallow embedding of the kcare-nexpose client (`src/nexpose_client.py`):
the request/response envelope protocol (session injection, sync-id
generation and verification, response-tag validation), message
serialization, and the vulnerability-details accessors.

XML trees are modelled structurally (children as a mutually inductive
forest so traversals compute); the transport is modelled by passing the
parsed server response as an argument; `random.randint` is modelled by a
function of an explicit per-call draw.
-/

namespace KcareNexpose

set_option autoImplicit false

mutual
/-- A parsed XML tree node (the result of `etree.XML`): a tag, string-valued
attributes, optional text, and child elements. -/
inductive XmlElement where
  | mk (tag : String) (attrib : List (String × String))
      (text : Option String) (children : XmlForest)
  deriving Repr
/-- A list of sibling XML elements. -/
inductive XmlForest where
  | nil
  | cons (head : XmlElement) (tail : XmlForest)
  deriving Repr
end

def XmlElement.tag : XmlElement → String
  | .mk t _ _ _ => t

def XmlElement.attrib : XmlElement → List (String × String)
  | .mk _ a _ _ => a

def XmlElement.text : XmlElement → Option String
  | .mk _ _ x _ => x

def XmlElement.children : XmlElement → XmlForest
  | .mk _ _ _ c => c

def XmlForest.ofList : List XmlElement → XmlForest
  | [] => .nil
  | c :: cs => .cons c (XmlForest.ofList cs)

def XmlForest.toList : XmlForest → List XmlElement
  | .nil => []
  | .cons c cs => c :: cs.toList

/-- Python `dict` assignment `d[k] = v`: replace the value at an existing
key (keeping its position), otherwise append a fresh binding. -/
def dictSet {α : Type} : List (String × α) → String → α → List (String × α)
  | [], k, v => [(k, v)]
  | p :: d, k, v => if p.1 = k then (k, v) :: d else p :: dictSet d k v

/-- Python `dict` lookup `d.get(k)` / `d[k]` (presence reported by `Option`). -/
def dictLookup {α : Type} : List (String × α) → String → Option α
  | [], _ => none
  | p :: d, k => if p.1 = k then some p.2 else dictLookup d k

/-- The in-memory attribute dictionaries of the request `Element` classes:
values may be Python `None` (`Option.none`). -/
abbrev AttrDict := List (String × Option String)

/-- The abstract request class `Element`: a request tag, the expected
response tag, an attribute dict and an inner-elements dict.  `isSession`
models `isinstance(elem, SessionElement)`. -/
structure Element where
  request_tag : String
  response_tag : String
  isSession : Bool
  attr_dict : AttrDict
  inner_elements : AttrDict
deriving Repr, DecidableEq

/-- `Element.__str__`: build an `etree.Element` named `request_tag` with
`attrib = attr_dict`, append one child per `inner_elements` entry with the
entry's value as text, and run `etree.tostring`.  `tostring` raises
`TypeError: cannot serialize None` when some attribute's value is `None`;
a child whose text is `None` serializes as an empty element. -/
def elementStr (m : Element) : Except String XmlElement :=
  if m.attr_dict.all (fun p => p.2.isSome) then
    .ok (.mk m.request_tag
      (m.attr_dict.filterMap (fun p => p.2.map (fun v => (p.1, v))))
      none
      (XmlForest.ofList (m.inner_elements.map (fun p => .mk p.1 [] p.2 .nil))))
  else
    .error "cannot serialize None"

def LoginElement (login password : String) : Element :=
  { request_tag := "LoginRequest", response_tag := "LoginResponse",
    isSession := false,
    attr_dict := [("user-id", some login), ("password", some password)],
    inner_elements := [] }

def LogoutElement : Element :=
  { request_tag := "LogoutRequest", response_tag := "LogoutResponse",
    isSession := true, attr_dict := [], inner_elements := [] }

def ReportConfigElement (config_id : String) : Element :=
  { request_tag := "ReportConfigRequest", response_tag := "ReportConfigResponse",
    isSession := true, attr_dict := [("reportcfg-id", some config_id)],
    inner_elements := [] }

def VulnerabilityDetailsElement (vuln_id : String) : Element :=
  { request_tag := "VulnerabilityDetailsRequest",
    response_tag := "VulnerabilityDetailsResponse",
    isSession := true, attr_dict := [("vuln-id", some vuln_id)],
    inner_elements := [] }

def VulnerabilityExceptionCreateElement (vuln_id reason scope : String)
    (device_id comment : Option String) : Element :=
  { request_tag := "VulnerabilityExceptionCreateRequest",
    response_tag := "VulnerabilityExceptionCreateResponse",
    isSession := true,
    attr_dict := [("vuln-id", some vuln_id), ("reason", some reason),
                  ("scope", some scope), ("device-id", device_id)],
    inner_elements := [("comment", comment)] }

def VERSION_1_1 : String := "1.1"
def VERSION_1_2 : String := "1.2"

/-- `random.randint lo hi`, as a function of an explicit draw from the
random source: its result always lies in `[lo, hi]`. -/
def randint (lo hi draw : Nat) : Nat := lo + draw % (hi - lo + 1)

/-- The ways `NexposeClient._send` (and the accessors around it) can raise.
`notAuthenticated` is the condition named by the specification for a
session-scoped call without a login; it is kept here so that its absence
from the code's behaviour can be stated. -/
inductive SendError where
  | notAuthenticated
  | serializationError (msg : String)
  | protocolMismatch (raw : XmlElement)
  | syncMismatch (request response : String)
  | keyError (key : String)
deriving Repr

/-- The observable outcome of one `_send` call: the message as it stands
after the call (the code mutates `elem.attr_dict` in place), the returned
tree or raised error, and whether the network exchange was reached. -/
structure SendOutcome where
  elem : Element
  result : Except SendError XmlElement
  exchanged : Bool

/-- Client state: connection identity plus the mutable `session_id`. -/
structure NexposeClient where
  username : String
  password : String
  session_id : Option String
deriving Repr, DecidableEq

/-- The injection step of `_send`: a `SessionElement` gets
`elem.attr_dict['session-id'] = self.session_id` and
`elem.attr_dict['sync-id'] = str(random.randint(1, 1000))`; any other
message is left untouched. -/
def injectedElem (c : NexposeClient) (elem : Element) (draw : Nat) : Element :=
  if elem.isSession then
    let d := dictSet (dictSet elem.attr_dict "session-id" c.session_id)
      "sync-id" (some (toString (randint 1 1000 draw)))
    { elem with attr_dict := d }
  else elem

/-- `NexposeClient._send(elem, protocol)`:
generate `sync_id = str(random.randint(1, 1000))`; if `elem` is a
`SessionElement`, set `elem.attr_dict['session-id'] = self.session_id` and
`elem.attr_dict['sync-id'] = sync_id` (the `injectedElem` step); serialize
and post (`str(elem)` is evaluated before the request is sent, so a
serialization failure precedes any exchange); reject a response whose root
tag differs from `elem.response_tag`; under protocol "1.2" for session
elements, look up the response's `sync-id` attribute (a `KeyError` if
absent) and reject a value different from `sync_id`. -/
def NexposeClient._send (c : NexposeClient) (elem : Element)
    (protocol : String) (draw : Nat) (response : XmlElement) : SendOutcome :=
  let sync_id := toString (randint 1 1000 draw)
  let elem := injectedElem c elem draw
  match elementStr elem with
  | .error e => { elem := elem, result := .error (.serializationError e),
                  exchanged := false }
  | .ok _ =>
    if response.tag ≠ elem.response_tag then
      { elem := elem, result := .error (.protocolMismatch response),
        exchanged := true }
    else if protocol = VERSION_1_2 ∧ elem.isSession = true then
      match dictLookup response.attrib "sync-id" with
      | none => { elem := elem, result := .error (.keyError "sync-id"),
                  exchanged := true }
      | some v =>
        if v ≠ sync_id then
          { elem := elem, result := .error (.syncMismatch sync_id v),
            exchanged := true }
        else { elem := elem, result := .ok response, exchanged := true }
    else { elem := elem, result := .ok response, exchanged := true }

/-- `NexposeClient.login`: send a `LoginElement` (protocol "1.2") and store
the response's `session-id` attribute as the new session id
(`response.attrib['session-id']` is a `KeyError` when absent). -/
def NexposeClient.login (c : NexposeClient) (draw : Nat)
    (response : XmlElement) : Except SendError NexposeClient :=
  match (NexposeClient._send c (LoginElement c.username c.password)
      VERSION_1_2 draw response).result with
  | .error e => .error e
  | .ok resp =>
    match dictLookup resp.attrib "session-id" with
    | none => .error (.keyError "session-id")
    | some sid => .ok { c with session_id := some sid }

/-- `NexposeClient.logout`: send a `LogoutElement` (protocol "1.2"); the
code does not touch `self.session_id` afterwards. -/
def NexposeClient.logout (c : NexposeClient) (draw : Nat)
    (response : XmlElement) : Except SendError NexposeClient :=
  match (NexposeClient._send c LogoutElement VERSION_1_2 draw response).result with
  | .error e => .error e
  | .ok _ => .ok c

mutual
/-- `e.find('.//' + tg)` restricted to the subtree rooted at `e`,
including `e` itself (the descendant-or-self step of the search). -/
def findTagEl (tg : String) : XmlElement → Option XmlElement
  | .mk t a x ch => if t = tg then some (.mk t a x ch) else findTagForest tg ch
/-- `elem.find('.//' + tg)` over a forest of subtrees: the first element
with tag `tg` in document (pre-)order. -/
def findTagForest (tg : String) : XmlForest → Option XmlElement
  | .nil => none
  | .cons c cs =>
    match findTagEl tg c with
    | some r => some r
    | none => findTagForest tg cs
end

mutual
/-- The subtree rooted at an element, listed in document (pre-)order. -/
def preOrderEl : XmlElement → List XmlElement
  | .mk t a x ch => .mk t a x ch :: preOrderForest ch
/-- A forest's elements in document (pre-)order. -/
def preOrderForest : XmlForest → List XmlElement
  | .nil => []
  | .cons c cs => preOrderEl c ++ preOrderForest cs
end

/-- `result.setdefault(src, []).append(txt)`: append to the list bound at
`src`, creating the binding at the end on first encounter. -/
def setdefaultAppend : List (String × List (Option String)) → String →
    Option String → List (String × List (Option String))
  | [], src, txt => [(src, [txt])]
  | p :: acc, src, txt =>
    if p.1 = src then (p.1, p.2 ++ [txt]) :: acc
    else p :: setdefaultAppend acc src txt

/-- The loop of `VulnerabilityDetailInstance.references`: over the children
of the `references` element, group texts by the `source` attribute
(`child.attrib['source']` is a `KeyError` when absent). -/
def collectRefs : List XmlElement →
    List (String × List (Option String)) →
    Except String (List (String × List (Option String)))
  | [], acc => .ok acc
  | c :: cs, acc =>
    match dictLookup c.attrib "source" with
    | none => .error "KeyError: source"
    | some s => collectRefs cs (setdefaultAppend acc s c.text)

/-- `VulnerabilityDetailInstance.description`: the text of the first
`description` descendant (an `AttributeError` on `None` when absent). -/
def VulnerabilityDetailInstance.description (elem : XmlElement) :
    Except String (Option String) :=
  match findTagForest "description" elem.children with
  | none => .error "AttributeError: NoneType has no attribute text"
  | some d => .ok d.text

/-- `VulnerabilityDetailInstance.references`: group the children of the
first `references` descendant by their `source` attribute (a `TypeError`
on iterating `None` when absent). -/
def VulnerabilityDetailInstance.references (elem : XmlElement) :
    Except String (List (String × List (Option String))) :=
  match findTagForest "references" elem.children with
  | none => .error "TypeError: NoneType is not iterable"
  | some refs => collectRefs refs.children.toList []

/-- The texts of the reference children carrying a given `source`, in
encounter order — the intended reading of the grouped mapping. -/
def refTexts (cs : List XmlElement) (s : String) : List (Option String) :=
  cs.filterMap (fun c =>
    if dictLookup c.attrib "source" = some s then some c.text else none)

/-! ### Concrete fixtures used by witnesses and counterexamples -/

/-- The spec's vulnerability-details scenario: the `description` element. -/
def sampleDescription : XmlElement := .mk "description" [] (some "Foo") .nil

/-- The spec's vulnerability-details scenario: the `references` element with
one CVE reference. -/
def sampleReferences : XmlElement :=
  .mk "references" [] none
    (.cons (.mk "reference" [("source", "CVE")] (some "CVE-2020-0001") .nil) .nil)

/-- The spec's vulnerability-details scenario: a response containing
`<description>Foo</description>` and one `CVE` reference. -/
def sampleDetailsResponse : XmlElement :=
  .mk "VulnerabilityDetailsResponse" [] none
    (.cons (.mk "Vulnerability" [] none
      (.cons sampleDescription (.cons sampleReferences .nil))) .nil)

/-- An exception-create message with every attribute set and a null
`comment` child entry. -/
def sampleCreateMsg : Element :=
  VulnerabilityExceptionCreateElement "vuln-1" "False Positive"
    "All Instances" (some "42") none

/-- What `sampleCreateMsg` serializes to: all four attributes, and the
null-texted `comment` child present as an empty element. -/
def sampleSerialized : XmlElement :=
  .mk "VulnerabilityExceptionCreateRequest"
    [("vuln-id", "vuln-1"), ("reason", "False Positive"),
     ("scope", "All Instances"), ("device-id", "42")]
    none
    (.cons (.mk "comment" [] none .nil) .nil)

/-! ### Helper lemmas -/

theorem dictLookup_dictSet_self {α : Type} (d : List (String × α))
    (k : String) (v : α) : dictLookup (dictSet d k v) k = some v := by
  induction d with
  | nil => simp [dictSet, dictLookup]
  | cons p d ih =>
    by_cases hp : p.1 = k
    · simp [dictSet, dictLookup, hp]
    · simp [dictSet, dictLookup, hp, ih]

theorem dictLookup_dictSet_of_ne {α : Type} (d : List (String × α))
    (k k' : String) (v : α) (hne : k ≠ k') :
    dictLookup (dictSet d k' v) k = dictLookup d k := by
  induction d with
  | nil => simp [dictSet, dictLookup, Ne.symm hne]
  | cons p d ih =>
    by_cases hp : p.1 = k'
    · have hpk : ¬ p.1 = k := by rw [hp]; exact Ne.symm hne
      simp [dictSet, dictLookup, hp, hpk, Ne.symm hne]
    · by_cases hk : p.1 = k
      · simp [dictSet, dictLookup, hp, hk, hne]
      · simp [dictSet, dictLookup, hp, hk, ih]

theorem mem_dictSet_self {α : Type} (d : List (String × α)) (k : String)
    (v : α) : (k, v) ∈ dictSet d k v := by
  induction d with
  | nil => simp [dictSet]
  | cons p d ih =>
    by_cases hp : p.1 = k
    · simp [dictSet, hp]
    · simp [dictSet, hp, ih]

theorem mem_dictSet_of_ne {α : Type} (d : List (String × α)) (p : String × α)
    (k : String) (v : α) (hp : p ∈ d) (hne : p.1 ≠ k) :
    p ∈ dictSet d k v := by
  induction d with
  | nil => simp at hp
  | cons q d ih =>
    by_cases hq : q.1 = k
    · rcases List.mem_cons.mp hp with h | h
      · exact absurd (h ▸ hq) hne
      · simp [dictSet, hq, h]
    · rcases List.mem_cons.mp hp with h | h
      · simp [dictSet, hq, h]
      · simp [dictSet, hq, ih h]

theorem elementStr_error_of_mem_none (m : Element) (k : String)
    (h : (k, (none : Option String)) ∈ m.attr_dict) :
    elementStr m = .error "cannot serialize None" := by
  unfold elementStr
  rw [if_neg]
  intro hall
  rw [List.all_eq_true] at hall
  simpa using hall _ h

theorem XmlForest.toList_ofList (l : List XmlElement) :
    (XmlForest.ofList l).toList = l := by
  induction l with
  | nil => rfl
  | cons c cs ih => simp [XmlForest.ofList, XmlForest.toList, ih]

theorem randint_le (lo hi draw : Nat) (h : lo ≤ hi) :
    lo ≤ randint lo hi draw ∧ randint lo hi draw ≤ hi := by
  unfold randint
  have hm := Nat.mod_lt draw (show 0 < hi - lo + 1 by omega)
  omega

theorem injectedElem_response_tag (c : NexposeClient) (elem : Element)
    (draw : Nat) : (injectedElem c elem draw).response_tag = elem.response_tag := by
  unfold injectedElem
  split <;> rfl

theorem injectedElem_isSession (c : NexposeClient) (elem : Element)
    (draw : Nat) : (injectedElem c elem draw).isSession = elem.isSession := by
  unfold injectedElem
  split <;> rfl

theorem _send_elem (c : NexposeClient) (elem : Element) (protocol : String)
    (draw : Nat) (response : XmlElement) :
    (NexposeClient._send c elem protocol draw response).elem
      = injectedElem c elem draw := by
  unfold NexposeClient._send
  dsimp only
  split
  · rfl
  · split
    · rfl
    · split
      · split
        · rfl
        · split
          · rfl
          · rfl
      · rfl

mutual
theorem findTagEl_eq_find? (tg : String) (e : XmlElement) :
    findTagEl tg e = (preOrderEl e).find? (fun x => x.tag == tg) := by
  cases e with
  | mk t a x ch =>
    by_cases ht : t = tg
    · simp [findTagEl, preOrderEl, XmlElement.tag, List.find?, ht]
    · have hbeq : (t == tg) = false := by simp [ht]
      simp [findTagEl, preOrderEl, XmlElement.tag, List.find?, ht, hbeq,
        findTagForest_eq_find? tg ch]
theorem findTagForest_eq_find? (tg : String) (f : XmlForest) :
    findTagForest tg f = (preOrderForest f).find? (fun x => x.tag == tg) := by
  cases f with
  | nil => rfl
  | cons c cs =>
    rw [findTagForest, preOrderForest, List.find?_append,
      findTagEl_eq_find? tg c, findTagForest_eq_find? tg cs]
    cases (preOrderEl c).find? (fun x => x.tag == tg) <;> rfl
end

theorem dictLookup_setdefaultAppend_self
    (acc : List (String × List (Option String))) (s : String)
    (t : Option String) :
    dictLookup (setdefaultAppend acc s t) s
      = some ((dictLookup acc s).getD [] ++ [t]) := by
  induction acc with
  | nil => simp [setdefaultAppend, dictLookup]
  | cons p acc ih =>
    by_cases hp : p.1 = s
    · simp [setdefaultAppend, dictLookup, hp]
    · simp [setdefaultAppend, dictLookup, hp, ih]

theorem dictLookup_setdefaultAppend_of_ne
    (acc : List (String × List (Option String))) (s s' : String)
    (t : Option String) (hne : s' ≠ s) :
    dictLookup (setdefaultAppend acc s t) s' = dictLookup acc s' := by
  induction acc with
  | nil => simp [setdefaultAppend, dictLookup, Ne.symm hne]
  | cons p acc ih =>
    by_cases hp : p.1 = s
    · have hps : ¬ p.1 = s' := by rw [hp]; exact Ne.symm hne
      simp [setdefaultAppend, dictLookup, hp, hps, Ne.symm hne]
    · by_cases hq : p.1 = s'
      · simp [setdefaultAppend, dictLookup, hp, hq, hne]
      · simp [setdefaultAppend, dictLookup, hp, hq, ih]

theorem collectRefs_spec (cs : List XmlElement)
    (hs : ∀ c ∈ cs, (dictLookup c.attrib "source").isSome = true)
    (acc : List (String × List (Option String))) :
    ∃ m, collectRefs cs acc = .ok m ∧
      ∀ s, dictLookup m s =
        match dictLookup acc s with
        | some l => some (l ++ refTexts cs s)
        | none => if refTexts cs s = [] then none else some (refTexts cs s) := by
  induction cs generalizing acc with
  | nil =>
    refine ⟨acc, rfl, fun s => ?_⟩
    cases h : dictLookup acc s <;> simp [refTexts, h]
  | cons c cs ih =>
    obtain ⟨s₀, hs₀⟩ := Option.isSome_iff_exists.mp
      (hs c (List.mem_cons_self c cs))
    obtain ⟨m, hm, hspec⟩ := ih (fun c' h' => hs c' (List.mem_cons_of_mem c h'))
      (setdefaultAppend acc s₀ c.text)
    rw [collectRefs, hs₀]
    refine ⟨m, hm, fun s => ?_⟩
    rw [hspec s]
    by_cases hss : s = s₀
    · subst hss
      rw [dictLookup_setdefaultAppend_self]
      have hrt : refTexts (c :: cs) s = c.text :: refTexts cs s := by
        simp [refTexts, hs₀]
      cases h : dictLookup acc s <;> simp [h, hrt]
    · rw [dictLookup_setdefaultAppend_of_ne _ _ _ _ hss]
      have hrt : refTexts (c :: cs) s = refTexts cs s := by
        simp [refTexts, hs₀, Ne.symm hss]
      rw [hrt]

theorem _send_exchanged_serialized (c : NexposeClient) (elem : Element)
    (protocol : String) (draw : Nat) (response : XmlElement)
    (hx : (NexposeClient._send c elem protocol draw response).exchanged
      = true) :
    ∃ x, elementStr (injectedElem c elem draw) = .ok x := by
  unfold NexposeClient._send at hx
  dsimp only at hx
  cases hser : elementStr (injectedElem c elem draw) with
  | error msg => rw [hser] at hx; simp at hx
  | ok x => exact ⟨x, rfl⟩

theorem _send_result_not_session (c : NexposeClient) (elem : Element)
    (protocol : String) (draw : Nat) (response : XmlElement)
    (h1 : elem.isSession = false) (h2 : response.tag = elem.response_tag)
    (hser : ∃ x, elementStr (injectedElem c elem draw) = .ok x) :
    (NexposeClient._send c elem protocol draw response).result
      = .ok response := by
  obtain ⟨x, hser⟩ := hser
  unfold NexposeClient._send
  dsimp only
  simp only [hser]
  rw [if_neg (show ¬response.tag ≠ (injectedElem c elem draw).response_tag by
    rw [injectedElem_response_tag]; exact not_not.mpr h2)]
  split
  case isTrue hcond =>
    exfalso
    have := hcond.2
    rw [injectedElem_isSession, h1] at this
    exact Bool.noConfusion this
  case isFalse => rfl

theorem _send_result_v11 (c : NexposeClient) (elem : Element) (draw : Nat)
    (response : XmlElement) (h2 : response.tag = elem.response_tag)
    (hser : ∃ x, elementStr (injectedElem c elem draw) = .ok x) :
    (NexposeClient._send c elem VERSION_1_1 draw response).result
      = .ok response := by
  obtain ⟨x, hser⟩ := hser
  unfold NexposeClient._send
  dsimp only
  simp only [hser]
  rw [if_neg (show ¬response.tag ≠ (injectedElem c elem draw).response_tag by
    rw [injectedElem_response_tag]; exact not_not.mpr h2)]
  split
  case isTrue hcond => exact absurd hcond.1 (by decide)
  case isFalse => rfl

theorem _send_result_session_v12 (c : NexposeClient) (elem : Element)
    (draw : Nat) (response : XmlElement)
    (h1 : elem.isSession = true) (h2 : response.tag = elem.response_tag)
    (hser : ∃ x, elementStr (injectedElem c elem draw) = .ok x) :
    (NexposeClient._send c elem VERSION_1_2 draw response).result
      = match dictLookup response.attrib "sync-id" with
        | none => .error (.keyError "sync-id")
        | some v =>
          if v ≠ toString (randint 1 1000 draw)
          then .error (.syncMismatch (toString (randint 1 1000 draw)) v)
          else .ok response := by
  obtain ⟨x, hser⟩ := hser
  unfold NexposeClient._send
  dsimp only
  simp only [hser]
  rw [if_neg (show ¬response.tag ≠ (injectedElem c elem draw).response_tag by
    rw [injectedElem_response_tag]; exact not_not.mpr h2)]
  split
  case isTrue =>
    cases dictLookup response.attrib "sync-id" with
    | none => rfl
    | some v =>
      dsimp only
      split <;> rfl
  case isFalse hcond =>
    exfalso
    apply hcond
    refine ⟨by trivial, ?_⟩
    rw [injectedElem_isSession]
    exact h1

/-! ### Claims -/

/-- C1 (counterexample): sending the session-scoped `LogoutElement` while
no session id is set does not fail with `NotAuthenticated`; it fails with
a serialization type error (the injected `None` session-id cannot be
serialized). -/
theorem send_noSession_not_notAuthenticated :
    (NexposeClient._send ⟨"u", "p", none⟩ LogoutElement VERSION_1_2 0
      (XmlElement.mk "LogoutResponse" [] none .nil)).result
      ≠ .error .notAuthenticated ∧
    (NexposeClient._send ⟨"u", "p", none⟩ LogoutElement VERSION_1_2 0
      (XmlElement.mk "LogoutResponse" [] none .nil)).result
      = .error (.serializationError "cannot serialize None") := by
  refine ⟨fun h => ?_, rfl⟩
  rw [show (NexposeClient._send ⟨"u", "p", none⟩ LogoutElement VERSION_1_2 0
      (XmlElement.mk "LogoutResponse" [] none .nil)).result
      = .error (.serializationError "cannot serialize None") from rfl] at h
  injection h with h'
  exact SendError.noConfusion h'

/-- C1 (amended): every session-scoped message sent while no session id is
set fails before any exchange takes place, but with a serialization error
(`TypeError` on the `None` session-id attribute), not with a
`NotAuthenticated` error. -/
theorem send_noSession_serialization_failure (c : NexposeClient)
    (elem : Element) (protocol : String) (draw : Nat) (response : XmlElement)
    (hs : elem.isSession = true) (hn : c.session_id = none) :
    (NexposeClient._send c elem protocol draw response).result
      = .error (.serializationError "cannot serialize None") ∧
    (NexposeClient._send c elem protocol draw response).exchanged = false := by
  have hmem : ("session-id", (none : Option String)) ∈
      (injectedElem c elem draw).attr_dict := by
    unfold injectedElem
    rw [if_pos hs]
    dsimp only
    rw [hn]
    exact mem_dictSet_of_ne _ _ _ _ (mem_dictSet_self _ _ _) (by decide)
  have hser := elementStr_error_of_mem_none _ "session-id" hmem
  unfold NexposeClient._send
  dsimp only
  rw [hser]
  exact ⟨rfl, rfl⟩

/-- C1 witness: the amended claim at a concrete input (a details request
sent by an unauthenticated client). -/
theorem send_noSession_serialization_failure_witness :
    (VulnerabilityDetailsElement "vuln-1").isSession = true ∧
    (NexposeClient.mk "admin" "secret" none).session_id = none ∧
    (NexposeClient._send ⟨"admin", "secret", none⟩
      (VulnerabilityDetailsElement "vuln-1") VERSION_1_2 7
      (XmlElement.mk "VulnerabilityDetailsResponse" [] none .nil)).result
      = .error (.serializationError "cannot serialize None") ∧
    (NexposeClient._send ⟨"admin", "secret", none⟩
      (VulnerabilityDetailsElement "vuln-1") VERSION_1_2 7
      (XmlElement.mk "VulnerabilityDetailsResponse" [] none .nil)).exchanged
      = false := by
  refine ⟨rfl, rfl, ?_⟩
  exact send_noSession_serialization_failure ⟨"admin", "secret", none⟩
    (VulnerabilityDetailsElement "vuln-1") VERSION_1_2 7
    (XmlElement.mk "VulnerabilityDetailsResponse" [] none .nil) rfl rfl

/-- C2 (counterexample): serializing the spec's example shapes — attributes
`{a: "1", b: null}` and children `{c: "x", d: null}` — does not yield an
element with exactly attribute `a` and exactly child `<c>x</c>`:
serialization fails outright on the null attribute value, and (with the
null attribute removed) the null-valued child entry `d` does appear in the
output, as an empty element. -/
theorem elementStr_null_entries_counterexample :
    elementStr { request_tag := "TestRequest", response_tag := "TestResponse",
                 isSession := false,
                 attr_dict := [("a", some "1"), ("b", none)],
                 inner_elements := [("c", some "x"), ("d", none)] }
      = .error "cannot serialize None" ∧
    elementStr { request_tag := "TestRequest", response_tag := "TestResponse",
                 isSession := false,
                 attr_dict := [("a", some "1")],
                 inner_elements := [("c", some "x"), ("d", none)] }
      = .ok (.mk "TestRequest" [("a", "1")] none
          (.cons (.mk "c" [] (some "x") .nil)
            (.cons (.mk "d" [] none .nil) .nil))) :=
  ⟨rfl, rfl⟩

/-- C2 (amended): when serialization succeeds, the output element carries
exactly the entries of the attribute mapping (success forces every
attribute value to be non-null: a null value fails serialization rather
than being omitted) and exactly one child element per child-entry — the
null-valued child entries included, as empty elements. -/
theorem elementStr_spec (m : Element) (e : XmlElement)
    (h : elementStr m = .ok e) :
    e.tag = m.request_tag ∧
    (∀ k v, (k, v) ∈ e.attrib ↔ (k, some v) ∈ m.attr_dict) ∧
    e.children.toList.map (fun c => (c.tag, c.text)) = m.inner_elements ∧
    (∀ p ∈ m.attr_dict, p.2 ≠ none) := by
  unfold elementStr at h
  split at h
  case isFalse => exact absurd h (by simp)
  case isTrue hall =>
    rw [Except.ok.injEq] at h
    subst h
    refine ⟨rfl, fun k v => ?_, ?_, fun p hp => ?_⟩
    · simp only [XmlElement.attrib, List.mem_filterMap, Option.map_eq_some']
      constructor
      · rintro ⟨p, hp, w, hw, hkv⟩
        rw [Prod.mk.injEq] at hkv
        rcases hkv with ⟨hk, hv⟩
        subst hk; subst hv
        rwa [← hw]
      · intro hkv
        exact ⟨(k, some v), hkv, v, rfl, rfl⟩
    · rw [XmlElement.children, XmlForest.toList_ofList, List.map_map]
      have hcomp : ((fun c => (c.tag, c.text)) ∘ fun p : String × Option String =>
          XmlElement.mk p.1 [] p.2 XmlForest.nil) = fun p => (p.1, p.2) := by
        funext p; rfl
      rw [hcomp]
      simp
    · rw [List.all_eq_true] at hall
      have := hall p hp
      simp only [decide_eq_true_eq] at this
      exact Option.isSome_iff_ne_none.mp (by simpa using this)

/-- C2 witness: the amended claim at a concrete input, an exception-create
message with all attributes set and a null `comment` child. -/
theorem elementStr_spec_witness :
    elementStr sampleCreateMsg = .ok sampleSerialized ∧
    (sampleSerialized.tag = sampleCreateMsg.request_tag ∧
    (∀ k v, (k, v) ∈ sampleSerialized.attrib ↔
      (k, some v) ∈ sampleCreateMsg.attr_dict) ∧
    sampleSerialized.children.toList.map (fun c => (c.tag, c.text))
      = sampleCreateMsg.inner_elements ∧
    (∀ p ∈ sampleCreateMsg.attr_dict, p.2 ≠ none)) :=
  ⟨rfl, elementStr_spec sampleCreateMsg sampleSerialized rfl⟩

/-- C3: for every exchange that takes place, a response whose root tag
differs from the declared `response_tag` makes `_send` fail with
`ProtocolMismatch` carrying that raw response — such a tree is never
returned — and whenever `_send` returns a tree, its root tag equals the
declared `response_tag`. -/
theorem send_response_tag_validated (c : NexposeClient) (elem : Element)
    (protocol : String) (draw : Nat) (response : XmlElement) :
    ((NexposeClient._send c elem protocol draw response).exchanged = true →
      response.tag ≠ elem.response_tag →
      (NexposeClient._send c elem protocol draw response).result
        = .error (.protocolMismatch response)) ∧
    (∀ t, (NexposeClient._send c elem protocol draw response).result = .ok t →
      t.tag = elem.response_tag) := by
  unfold NexposeClient._send
  dsimp only
  cases hser : elementStr (injectedElem c elem draw) with
  | error msg =>
    simp only [hser]
    exact ⟨fun hx => absurd hx (by simp), fun t ht => absurd ht (by simp)⟩
  | ok x =>
    simp only [hser]
    split
    case isTrue htag =>
      exact ⟨fun _ _ => rfl, fun t ht => absurd ht (by simp)⟩
    case isFalse htag =>
      have htag' : response.tag = elem.response_tag := by
        rw [not_not] at htag
        rw [htag, injectedElem_response_tag]
      refine ⟨fun _ hne => absurd htag' hne, fun t ht => ?_⟩
      split at ht
      · split at ht
        · simp at ht
        · split at ht
          · simp at ht
          · simp at ht
            rw [← ht]
            exact htag'
      · simp at ht
        rw [← ht]
        exact htag'

/-- C3 witness: a wrong-tag response at a concrete input yields
`ProtocolMismatch` carrying the raw response. -/
theorem send_response_tag_validated_witness :
    (NexposeClient._send ⟨"u", "p", some "s"⟩ LogoutElement VERSION_1_2 0
      (XmlElement.mk "Oops" [] none .nil)).exchanged = true ∧
    (XmlElement.mk "Oops" [] none .nil).tag ≠ LogoutElement.response_tag ∧
    (NexposeClient._send ⟨"u", "p", some "s"⟩ LogoutElement VERSION_1_2 0
      (XmlElement.mk "Oops" [] none .nil)).result
      = .error (.protocolMismatch (XmlElement.mk "Oops" [] none .nil)) := by
  refine ⟨rfl, by simp [LogoutElement, XmlElement.tag], ?_⟩
  exact (send_response_tag_validated ⟨"u", "p", some "s"⟩ LogoutElement
    VERSION_1_2 0 (XmlElement.mk "Oops" [] none .nil)).1 rfl
    (by simp [LogoutElement, XmlElement.tag])

/-- C4: under protocol "1.2", a session-scoped exchange with the correct
root tag whose `sync-id` attribute is present but different from the
generated token fails with `SyncMismatch`; under protocol "1.1" no sync-id
comparison happens (the response is returned no matter what its `sync-id`
state is), and likewise for non-session messages under any protocol. -/
theorem send_sync_mismatch_checked (c : NexposeClient) (elem : Element)
    (draw : Nat) (response : XmlElement) :
    (∀ v, elem.isSession = true →
      response.tag = elem.response_tag →
      (NexposeClient._send c elem VERSION_1_2 draw response).exchanged = true →
      dictLookup response.attrib "sync-id" = some v →
      v ≠ toString (randint 1 1000 draw) →
      (NexposeClient._send c elem VERSION_1_2 draw response).result
        = .error (.syncMismatch (toString (randint 1 1000 draw)) v)) ∧
    ((NexposeClient._send c elem VERSION_1_1 draw response).exchanged = true →
      response.tag = elem.response_tag →
      (NexposeClient._send c elem VERSION_1_1 draw response).result
        = .ok response) ∧
    (∀ protocol, elem.isSession = false →
      (NexposeClient._send c elem protocol draw response).exchanged = true →
      response.tag = elem.response_tag →
      (NexposeClient._send c elem protocol draw response).result
        = .ok response) := by
  refine ⟨fun v h1 h2 hx h3 h4 => ?_, fun hx h2 => ?_, fun protocol h1 hx h2 => ?_⟩
  · rw [_send_result_session_v12 c elem draw response h1 h2
      (_send_exchanged_serialized c elem VERSION_1_2 draw response hx)]
    simp only [h3]
    rw [if_pos h4]
  · exact _send_result_v11 c elem draw response h2
      (_send_exchanged_serialized c elem VERSION_1_1 draw response hx)
  · exact _send_result_not_session c elem protocol draw response h1 h2
      (_send_exchanged_serialized c elem protocol draw response hx)

/-- C4 witness: a mismatching sync-id at a concrete session exchange under
"1.2" yields `SyncMismatch`; the same wrong sync-id under "1.1", and the
non-session login message, are returned untouched. -/
theorem send_sync_mismatch_checked_witness :
    (NexposeClient._send ⟨"u", "p", some "s"⟩ LogoutElement VERSION_1_2 0
      (XmlElement.mk "LogoutResponse" [("sync-id", "999")] none .nil)).result
      = .error (.syncMismatch "1" "999") ∧
    (NexposeClient._send ⟨"u", "p", some "s"⟩ LogoutElement VERSION_1_1 0
      (XmlElement.mk "LogoutResponse" [("sync-id", "999")] none .nil)).result
      = .ok (XmlElement.mk "LogoutResponse" [("sync-id", "999")] none .nil) ∧
    (NexposeClient._send ⟨"u", "p", some "s"⟩ (LoginElement "u" "p")
      VERSION_1_2 0 (XmlElement.mk "LoginResponse" [] none .nil)).result
      = .ok (XmlElement.mk "LoginResponse" [] none .nil) := by
  have h := send_sync_mismatch_checked ⟨"u", "p", some "s"⟩ LogoutElement 0
    (XmlElement.mk "LogoutResponse" [("sync-id", "999")] none .nil)
  have h' := send_sync_mismatch_checked ⟨"u", "p", some "s"⟩
    (LoginElement "u" "p") 0 (XmlElement.mk "LoginResponse" [] none .nil)
  exact ⟨h.1 "999" rfl rfl rfl rfl (by decide),
    h.2.1 rfl rfl,
    h'.2.2 VERSION_1_2 rfl rfl rfl⟩

/-- C5: a login exchange whose validated response root is `LoginResponse`
carrying a `session-id` attribute succeeds and stores exactly that
attribute's value as the session id; the login message is not
session-scoped (so the "1.2" sync check does not apply to it). -/
theorem login_sets_session_id (c : NexposeClient) (draw : Nat)
    (resp : XmlElement) (sid : String)
    (h1 : resp.tag = "LoginResponse")
    (h2 : dictLookup resp.attrib "session-id" = some sid) :
    NexposeClient.login c draw resp = .ok { c with session_id := some sid } ∧
    (LoginElement c.username c.password).isSession = false := by
  refine ⟨?_, rfl⟩
  have hres : (NexposeClient._send c (LoginElement c.username c.password)
      VERSION_1_2 draw resp).result = .ok resp :=
    _send_result_not_session c (LoginElement c.username c.password)
      VERSION_1_2 draw resp rfl h1
      ⟨.mk "LoginRequest" [("user-id", c.username), ("password", c.password)]
        none .nil, rfl⟩
  unfold NexposeClient.login
  simp only [hres]
  simp only [h2]

/-- C5 witness: the spec's login scenario — a stub
`<LoginResponse session-id="abc123"/>` (no sync-id at all) yields session
id `"abc123"`. -/
theorem login_sets_session_id_witness :
    (XmlElement.mk "LoginResponse" [("session-id", "abc123")] none .nil).tag
      = "LoginResponse" ∧
    NexposeClient.login ⟨"admin", "secret", none⟩ 3
      (XmlElement.mk "LoginResponse" [("session-id", "abc123")] none .nil)
      = .ok ⟨"admin", "secret", some "abc123"⟩ := by
  refine ⟨rfl, ?_⟩
  exact (login_sets_session_id ⟨"admin", "secret", none⟩ 3
    (XmlElement.mk "LoginResponse" [("session-id", "abc123")] none .nil)
    "abc123" rfl rfl).1

/-- C6 (counterexample): a successful logout does not clear the session id:
after logging out, the client still holds session id `"abc"` — not the
empty pre-login state. -/
theorem logout_counterexample :
    NexposeClient.logout ⟨"u", "p", some "abc"⟩ 0
      (XmlElement.mk "LogoutResponse" [("sync-id", "1")] none .nil)
      = .ok ⟨"u", "p", some "abc"⟩ ∧
    (NexposeClient.mk "u" "p" (some "abc")).session_id ≠ none :=
  ⟨rfl, by simp⟩

/-- C6 (amended): a successful logout leaves the client state — in
particular `session_id` — exactly as it was before the call; the code
never clears it locally. -/
theorem logout_leaves_session_id (c : NexposeClient) (draw : Nat)
    (resp : XmlElement) (c' : NexposeClient)
    (h : NexposeClient.logout c draw resp = .ok c') :
    c' = c ∧ c'.session_id = c.session_id := by
  unfold NexposeClient.logout at h
  cases hr : (NexposeClient._send c LogoutElement VERSION_1_2 draw resp).result with
  | error e => rw [hr] at h; exact absurd h (by simp)
  | ok x =>
    rw [hr] at h
    rw [Except.ok.injEq] at h
    subst h
    exact ⟨rfl, rfl⟩

/-- C6 witness: the amended claim at a concrete successful logout. -/
theorem logout_leaves_session_id_witness :
    NexposeClient.logout ⟨"u", "p", some "xyz"⟩ 5
      (XmlElement.mk "LogoutResponse" [("sync-id", "6")] none .nil)
      = .ok ⟨"u", "p", some "xyz"⟩ ∧
    (NexposeClient.mk "u" "p" (some "xyz")).session_id = some "xyz" := by
  refine ⟨rfl, ?_⟩
  exact (logout_leaves_session_id ⟨"u", "p", some "xyz"⟩ 5
    (XmlElement.mk "LogoutResponse" [("sync-id", "6")] none .nil)
    ⟨"u", "p", some "xyz"⟩ rfl).2

/-- C7: for a response containing a `description` element and a
`references` element all of whose children carry a `source` attribute,
the accessor's description is the text of the first `description` element
in document order, and its references map each source to the ordered list
of that source's reference texts, in encounter order. -/
theorem vulnerability_details_accessors (t d r : XmlElement)
    (hd : findTagForest "description" t.children = some d)
    (hr : findTagForest "references" t.children = some r)
    (hs : ∀ c ∈ r.children.toList,
      (dictLookup c.attrib "source").isSome = true) :
    VulnerabilityDetailInstance.description t = .ok d.text ∧
    (preOrderForest t.children).find? (fun x => x.tag == "description")
      = some d ∧
    ∃ m, VulnerabilityDetailInstance.references t = .ok m ∧
      ∀ s, dictLookup m s =
        if refTexts r.children.toList s = [] then none
        else some (refTexts r.children.toList s) := by
  refine ⟨?_, ?_, ?_⟩
  · unfold VulnerabilityDetailInstance.description
    rw [hd]
  · rw [← findTagForest_eq_find?]
    exact hd
  · obtain ⟨m, hm, hspec⟩ := collectRefs_spec r.children.toList hs []
    refine ⟨m, ?_, fun s => hspec s⟩
    unfold VulnerabilityDetailInstance.references
    rw [hr]
    exact hm

/-- C7 witness: the spec's scenario yields description `"Foo"` and
references `{"CVE": ["CVE-2020-0001"]}`. -/
theorem vulnerability_details_accessors_witness :
    VulnerabilityDetailInstance.description sampleDetailsResponse
      = .ok (some "Foo") ∧
    VulnerabilityDetailInstance.references sampleDetailsResponse
      = .ok [("CVE", [some "CVE-2020-0001"])] ∧
    (preOrderForest sampleDetailsResponse.children).find?
      (fun x => x.tag == "description") = some sampleDescription := by
  have h := vulnerability_details_accessors sampleDetailsResponse
    sampleDescription sampleReferences rfl rfl (by decide)
  exact ⟨h.1, rfl, h.2.1⟩

/-- C8: the sync token attached to every session-scoped message is the
decimal string of an integer in the inclusive range [1, 1000], derived
afresh from the per-call random draw. -/
theorem sync_token_decimal_range (c : NexposeClient) (elem : Element)
    (protocol : String) (draw : Nat) (response : XmlElement)
    (hs : elem.isSession = true) :
    1 ≤ randint 1 1000 draw ∧ randint 1 1000 draw ≤ 1000 ∧
    dictLookup (NexposeClient._send c elem protocol draw
        response).elem.attr_dict "sync-id"
      = some (some (toString (randint 1 1000 draw))) := by
  obtain ⟨hlo, hhi⟩ := randint_le 1 1000 draw (by omega)
  refine ⟨hlo, hhi, ?_⟩
  rw [_send_elem]
  unfold injectedElem
  rw [if_pos hs]
  dsimp only
  exact dictLookup_dictSet_self _ _ _

/-- C8 witness: at draw 41 the attached token is `"42"`, the decimal string
of 42 ∈ [1, 1000]. -/
theorem sync_token_decimal_range_witness :
    LogoutElement.isSession = true ∧
    (1 ≤ randint 1 1000 41 ∧ randint 1 1000 41 ≤ 1000 ∧
    dictLookup (NexposeClient._send ⟨"u", "p", some "s"⟩ LogoutElement
        VERSION_1_2 41 (XmlElement.mk "LogoutResponse" [] none
          .nil)).elem.attr_dict "sync-id"
      = some (some (toString (randint 1 1000 41)))) :=
  ⟨rfl, sync_token_decimal_range ⟨"u", "p", some "s"⟩ LogoutElement
    VERSION_1_2 41 (XmlElement.mk "LogoutResponse" [] none .nil) rfl⟩

/-- C9: under protocol "1.2", a session-scoped exchange whose response has
the correct root tag but no `sync-id` attribute at all fails through the
unguarded attribute lookup — a `KeyError` — and not through the
`SyncMismatch` branch. -/
theorem send_sync_absent_keyError (c : NexposeClient) (elem : Element)
    (draw : Nat) (response : XmlElement)
    (h1 : elem.isSession = true)
    (h2 : response.tag = elem.response_tag)
    (h3 : dictLookup response.attrib "sync-id" = none)
    (h4 : (NexposeClient._send c elem VERSION_1_2 draw response).exchanged
      = true) :
    (NexposeClient._send c elem VERSION_1_2 draw response).result
      = .error (.keyError "sync-id") ∧
    ∀ a b, (NexposeClient._send c elem VERSION_1_2 draw response).result
      ≠ .error (.syncMismatch a b) := by
  have hres : (NexposeClient._send c elem VERSION_1_2 draw response).result
      = .error (.keyError "sync-id") := by
    rw [_send_result_session_v12 c elem draw response h1 h2
      (_send_exchanged_serialized c elem VERSION_1_2 draw response h4)]
    simp only [h3]
  refine ⟨hres, fun a b h => ?_⟩
  rw [hres] at h
  injection h with h'
  exact SendError.noConfusion h'

/-- C9 witness: a concrete session exchange under "1.2" whose correctly
tagged response lacks `sync-id` fails with the `KeyError`, not
`SyncMismatch`. -/
theorem send_sync_absent_keyError_witness :
    (NexposeClient._send ⟨"u", "p", some "s"⟩ LogoutElement VERSION_1_2 0
      (XmlElement.mk "LogoutResponse" [] none .nil)).result
      = .error (.keyError "sync-id") ∧
    (NexposeClient._send ⟨"u", "p", some "s"⟩ LogoutElement VERSION_1_2 0
      (XmlElement.mk "LogoutResponse" [] none .nil)).result
      ≠ .error (.syncMismatch "1" "2") := by
  have h := send_sync_absent_keyError ⟨"u", "p", some "s"⟩ LogoutElement 0
    (XmlElement.mk "LogoutResponse" [] none .nil) rfl rfl rfl rfl
  exact ⟨h.1, h.2 "1" "2"⟩

/-- C10: `_send` mutates a session-scoped message before serialization:
afterwards its attribute mapping holds `session-id` (the client's current
session id) and `sync-id` (the generated token); the post-call message
does not depend on the response at all, so the mutation persists when the
exchange subsequently fails validation. -/
theorem send_mutates_session_message (c : NexposeClient) (elem : Element)
    (protocol : String) (draw : Nat) (response : XmlElement)
    (hs : elem.isSession = true) :
    dictLookup (NexposeClient._send c elem protocol draw
        response).elem.attr_dict "session-id" = some c.session_id ∧
    dictLookup (NexposeClient._send c elem protocol draw
        response).elem.attr_dict "sync-id"
      = some (some (toString (randint 1 1000 draw))) ∧
    ∀ response' : XmlElement,
      (NexposeClient._send c elem protocol draw response).elem
        = (NexposeClient._send c elem protocol draw response').elem := by
  refine ⟨?_, ?_, fun r => by rw [_send_elem, _send_elem]⟩
  · rw [_send_elem]
    unfold injectedElem
    rw [if_pos hs]
    dsimp only
    rw [dictLookup_dictSet_of_ne _ _ _ _ (by decide)]
    exact dictLookup_dictSet_self _ _ _
  · rw [_send_elem]
    unfold injectedElem
    rw [if_pos hs]
    dsimp only
    exact dictLookup_dictSet_self _ _ _

/-- C10 witness: at a concrete failing exchange (wrong root tag) the
logout message still carries the injected `session-id` and `sync-id`, and
its post-call state equals the one from a succeeding exchange. -/
theorem send_mutates_session_message_witness :
    LogoutElement.isSession = true ∧
    dictLookup (NexposeClient._send ⟨"u", "p", some "sid"⟩ LogoutElement
        VERSION_1_2 2 (XmlElement.mk "Bad" [] none
          .nil)).elem.attr_dict "session-id" = some (some "sid") ∧
    dictLookup (NexposeClient._send ⟨"u", "p", some "sid"⟩ LogoutElement
        VERSION_1_2 2 (XmlElement.mk "Bad" [] none
          .nil)).elem.attr_dict "sync-id" = some (some "3") ∧
    (NexposeClient._send ⟨"u", "p", some "sid"⟩ LogoutElement VERSION_1_2 2
      (XmlElement.mk "Bad" [] none .nil)).elem
      = (NexposeClient._send ⟨"u", "p", some "sid"⟩ LogoutElement VERSION_1_2 2
      (XmlElement.mk "LogoutResponse" [("sync-id", "3")] none .nil)).elem := by
  have h := send_mutates_session_message ⟨"u", "p", some "sid"⟩ LogoutElement
    VERSION_1_2 2 (XmlElement.mk "Bad" [] none .nil) rfl
  exact ⟨rfl, h.1, h.2.1, h.2.2 _⟩

end KcareNexpose
